import Mathlib

/-!
Verification of the waste-bin backend core (burglary alert correlation,
health vitals rule evaluation, energy audit rule evaluation and alert
deduplication) against its natural-language specification.

The Python source is shallowly embedded: SQLAlchemy tables become Lean
structures, database query results become lists in insertion order,
datetimes become rational numbers of seconds, Python floats become
rationals, nullable columns become Option, and Python TypeError aborts
become Except.error values.  Human-readable message strings built by
f-strings are not modelled; every field a rule reads or writes is.
-/

namespace Burglary

/-- Embeds the pir_sensors_triggered JSON column of burglary_alerts:
a record with keys left, middle, right. -/
structure PirSensors where
  left : Bool
  middle : Bool
  right : Bool
deriving DecidableEq

/-- Embeds the Alert model of src/burglary_alert/models/alert.py
(table burglary_alerts).  Note the table has no device column of any
kind; timestamps are seconds as rationals.  The autoincrement primary
key is the id field. -/
structure Alert where
  id : Nat
  timestamp : ℚ
  alert_type : String
  detection_confidence : ℚ
  pir_sensors_triggered : PirSensors
  network_status : String
  image_id : Option Nat
  correlated : Bool
deriving DecidableEq

/-- Embeds the Image model of src/burglary_alert/models/image.py
(table burglary_images).  Like Alert, it has no device column. -/
structure Image where
  id : Nat
  timestamp : ℚ
  image_path : String
  file_size : Nat
  alert_id : Option Nat
deriving DecidableEq

/-- CORRELATION_WINDOW_SECONDS = 5 from
src/burglary_alert/services/correlation.py. -/
def CORRELATION_WINDOW_SECONDS : ℚ := 5

/-- Insert an alert into a timestamp-descending list, keeping earlier
list elements first among equal timestamps (stable, as SQLite returns
rows in rowid order among equal ORDER BY keys). -/
def insertTsDesc (a : Alert) : List Alert → List Alert
  | [] => [a]
  | b :: l => if b.timestamp ≤ a.timestamp then a :: b :: l else b :: insertTsDesc a l

/-- Stable sort by timestamp descending: the order_by(Alert.timestamp.desc())
of the correlation query. -/
def sortTsDesc : List Alert → List Alert
  | [] => []
  | a :: l => insertTsDesc a (sortTsDesc l)

/-- The query of correlate_image_with_alert: uncorrelated alerts with
timestamp in the closed interval from image.timestamp - 10 to
image.timestamp + CORRELATION_WINDOW_SECONDS, ordered by timestamp
descending.  It filters on no other column: in particular, on no
device identity, which the rows do not carry. -/
def uncorrelatedAlertsInWindow (db : List Alert) (image : Image) : List Alert :=
  sortTsDesc (db.filter fun a =>
    !a.correlated
      && decide (image.timestamp - 10 ≤ a.timestamp)
      && decide (a.timestamp ≤ image.timestamp + CORRELATION_WINDOW_SECONDS))

/-- One step of the best-match loop of correlate_image_with_alert:
the accumulator holds (best_match, min_time_diff); a candidate replaces
it only when its absolute time difference is strictly smaller. -/
def scanStep (image : Image) (acc : Option Alert × ℚ) (alert : Alert) : Option Alert × ℚ :=
  let time_diff := |alert.timestamp - image.timestamp|
  if time_diff < acc.2 then (some alert, time_diff) else acc

/-- The best-match loop, started at (None, CORRELATION_WINDOW_SECONDS):
best_match stays None unless some candidate is strictly closer than
5 seconds. -/
def scanBest (image : Image) (alerts : List Alert) : Option Alert × ℚ :=
  alerts.foldl (scanStep image) (none, CORRELATION_WINDOW_SECONDS)

/-- Embeds correlate_image_with_alert of
src/burglary_alert/services/correlation.py.  Returns the matched alert
(after the link fields are written, as the source returns the refreshed
best_match), the updated alert table and the updated image.  On no
match everything is returned unchanged, as the source only commits on a
match. -/
def correlate_image_with_alert (db : List Alert) (image : Image) :
    Option Alert × List Alert × Image :=
  let uncorrelated_alerts := uncorrelatedAlertsInWindow db image
  match (scanBest image uncorrelated_alerts).1 with
  | none => (none, db, image)
  | some best_match =>
      let linked : Alert := { best_match with image_id := some image.id, correlated := true }
      (some linked,
       db.map fun a => if a.id = best_match.id then linked else a,
       { image with alert_id := some best_match.id })

/-- Embeds the AlertCreate request body of
src/burglary_alert/routers/alerts.py; timestamp is unix milliseconds. -/
structure AlertCreate where
  timestamp : Int
  detection_confidence : ℚ
  pir_left : Bool
  pir_middle : Bool
  pir_right : Bool
  network_status : String
deriving DecidableEq

/-- Embeds the database effect of the receive_alert route of
src/burglary_alert/routers/alerts.py: a new Alert row is appended with
alert_type motion, the millisecond timestamp divided by 1000, and no
link; the route receives no device identifier and stores none (the
device API key is a single shared secret). -/
def receive_alert (db : List Alert) (alert_data : AlertCreate) : List Alert :=
  db ++ [{ id := db.length + 1
         , timestamp := (alert_data.timestamp : ℚ) / 1000
         , alert_type := "motion"
         , detection_confidence := alert_data.detection_confidence
         , pir_sensors_triggered :=
             ⟨alert_data.pir_left, alert_data.pir_middle, alert_data.pir_right⟩
         , network_status := alert_data.network_status
         , image_id := none
         , correlated := false }]

/-- A scenario-level alert table built from a list of posts, each
tagged with the name of the device that called the endpoint.  The tag
is dropped by receive_alert exactly as in the source, where nothing of
the caller reaches the row. -/
def postedAlerts (posts : List (String × AlertCreate)) : List Alert :=
  posts.foldl (fun db p => receive_alert db p.2) []

end Burglary

namespace Health

/-- Embeds HeartRateData of src/health_monitoring/schemas.py. -/
structure HeartRateData where
  bpm : Int
  signal_quality : Int
  is_valid : Bool
deriving DecidableEq

/-- Embeds SpO2Data of src/health_monitoring/schemas.py. -/
structure SpO2Data where
  percent : Int
  signal_quality : Int
  is_valid : Bool
deriving DecidableEq

/-- Embeds TemperatureData of src/health_monitoring/schemas.py. -/
structure TemperatureData where
  celsius : ℚ
  source : String
  is_estimated : Bool
deriving DecidableEq

/-- Embeds SystemData of src/health_monitoring/schemas.py. -/
structure SystemData where
  battery_percent : Int
  battery_voltage : ℚ
  wifi_rssi : Int
  uptime_seconds : Int
deriving DecidableEq

/-- Embeds VitalsData of src/health_monitoring/schemas.py. -/
structure VitalsData where
  heart_rate : HeartRateData
  spo2 : SpO2Data
  temperature : TemperatureData
deriving DecidableEq

/-- Embeds VitalReadingCreate of src/health_monitoring/schemas.py;
timestamp is unix seconds. -/
structure VitalReadingCreate where
  device_id : String
  timestamp : Int
  vitals : VitalsData
  system : SystemData
deriving DecidableEq

/-- Embeds the HealthDevice table of src/health_monitoring/models.py.
Optional columns are Option; resting_hr and is_athlete are nullable
because the pydantic DeviceCreate fields are Optional and the service
assigns them through directly. -/
structure HealthDevice where
  device_id : String
  device_name : Option String
  user_name : Option String
  date_of_birth : Option String
  gender : Option String
  resting_hr : Option Int
  is_athlete : Option Bool
  last_seen : Option ℚ
deriving DecidableEq

/-- Embeds DeviceCreate of src/health_monitoring/schemas.py with its
pydantic defaults: resting_hr 70 and is_athlete False. -/
structure DeviceCreate where
  device_id : String
  device_name : Option String := none
  user_name : Option String := none
  date_of_birth : Option String := none
  gender : Option String := none
  resting_hr : Option Int := some 70
  is_athlete : Option Bool := some false
deriving DecidableEq

/-- Embeds the HealthThreshold table of src/health_monitoring/models.py. -/
structure HealthThreshold where
  device_id : String
  threshold_type : String
  threshold_value : ℚ
  enabled : Bool
deriving DecidableEq

/-- Embeds the HealthVitalReading table of
src/health_monitoring/models.py, with the fields create_vital_reading
stores. -/
structure HealthVitalReading where
  device_id : String
  timestamp : Int
  heart_rate : Int
  hr_signal_quality : Int
  is_hr_valid : Bool
  spo2 : Int
  spo2_signal_quality : Int
  is_spo2_valid : Bool
  temperature : ℚ
  temp_source : String
  is_temp_estimated : Bool
  battery_percent : Int
  battery_voltage : ℚ
  wifi_rssi : Int
  uptime_seconds : Int
deriving DecidableEq

/-- Embeds the vital_snapshot JSON column written by create_alert in
src/health_monitoring/correlation_engine.py. -/
structure VitalSnapshot where
  hr : Int
  hr_quality : Int
  spo2 : Int
  spo2_quality : Int
  temp : ℚ
  temp_source : String
deriving DecidableEq

/-- Embeds the HealthAlert table of src/health_monitoring/models.py;
the human-readable message column is not modelled.  The timestamp is
the clock value at creation (datetime.utcnow in the source), in
seconds. -/
structure HealthAlert where
  device_id : String
  timestamp : ℚ
  alert_type : String
  severity : String
  vital_snapshot : VitalSnapshot
  acknowledged : Bool
deriving DecidableEq

/-- The database of the health subsystem as lists in insertion order. -/
structure HealthState where
  devices : List HealthDevice
  thresholds : List HealthThreshold
  readings : List HealthVitalReading
  alerts : List HealthAlert
deriving DecidableEq

/-- The threshold_dict comprehension of analyze_vitals: a Python dict
built left to right, so the last row wins for a duplicated key; a
missing key falls back to the hard-coded default of the get call. -/
def thresholdGet (ths : List HealthThreshold) (key : String) (dflt : ℚ) : ℚ :=
  match ths.reverse.find? (fun t => decide (t.threshold_type = key)) with
  | some t => t.threshold_value
  | none => dflt

/-- Python truthiness of the nullable is_athlete flag as used in
analyze_vitals: None and False are falsy. -/
def athleteTruthy : Option Bool → Bool
  | none => false
  | some b => b

/-- Embeds create_alert of src/health_monitoring/correlation_engine.py:
the stored row, including the vital_snapshot with spo2 forced to 0
when the reading flags it invalid. -/
def create_alert (device_id alert_type severity : String)
    (v : VitalReadingCreate) (now : ℚ) : HealthAlert :=
  { device_id := device_id
  , timestamp := now
  , alert_type := alert_type
  , severity := severity
  , vital_snapshot :=
      { hr := v.vitals.heart_rate.bpm
      , hr_quality := v.vitals.heart_rate.signal_quality
      , spo2 := if v.vitals.spo2.is_valid then v.vitals.spo2.percent else 0
      , spo2_quality := v.vitals.spo2.signal_quality
      , temp := v.vitals.temperature.celsius
      , temp_source := v.vitals.temperature.source }
  , acknowledged := false }

/-- The rule cascade of analyze_vitals of
src/health_monitoring/correlation_engine.py, given the resolved device
row and its enabled thresholds.  Rules appear in source order; each
appends at most one alert.  spo2 is the reading percent when the
reading is valid and 0 otherwise, and every spo2 rule is guarded by
spo2 > 0. -/
def evalVitalRules (device : HealthDevice) (ths : List HealthThreshold)
    (now : ℚ) (v : VitalReadingCreate) : List HealthAlert :=
  let hr : Int := v.vitals.heart_rate.bpm
  let spo2 : Int := if v.vitals.spo2.is_valid then v.vitals.spo2.percent else 0
  let temp : ℚ := v.vitals.temperature.celsius
  (if spo2 > 0 ∧ (spo2 : ℚ) < thresholdGet ths "SPO2_CRITICAL" 90 then
    [create_alert v.device_id "CRITICAL_HYPOXIA" "CRITICAL" v now]
   else if spo2 > 0 ∧ (spo2 : ℚ) < thresholdGet ths "SPO2_LOW" 95 then
    [create_alert v.device_id "LOW_SPO2" "WARNING" v now]
   else [])
  ++ (if spo2 > 0 ∧ spo2 < 94 ∧ hr > 90 then
    [create_alert v.device_id "RESPIRATORY_DISTRESS" "CRITICAL" v now] else [])
  ++ (if temp > 37.5 ∧ hr > 90 ∧ spo2 > 0 ∧ spo2 < 96 then
    [create_alert v.device_id "INFECTION_PATTERN" "WARNING" v now] else [])
  ++ (if temp > thresholdGet ths "TEMP_HIGH" 38 then
    (if (hr : ℚ) > thresholdGet ths "HR_HIGH" 100 then
      [create_alert v.device_id "FEVER" "WARNING" v now]
     else
      [create_alert v.device_id "HIGH_TEMP" "WARNING" v now])
    else [])
  ++ (if (hr : ℚ) > thresholdGet ths "HR_HIGH" 100 then
    [create_alert v.device_id "TACHYCARDIA" "WARNING" v now] else [])
  ++ (if (hr : ℚ) < thresholdGet ths "HR_LOW" 50 ∧ hr > 0
        ∧ athleteTruthy device.is_athlete = false then
    [create_alert v.device_id "BRADYCARDIA" "WARNING" v now] else [])
  ++ (if v.vitals.temperature.is_estimated = true ∧ hr > 100 then
    [create_alert v.device_id "TEMP_EST_UNRELIABLE" "INFO" v now] else [])
  ++ (if temp < thresholdGet ths "TEMP_LOW" 35.5 then
    [create_alert v.device_id "HYPOTHERMIA" "CRITICAL" v now] else [])
  ++ (if spo2 > 0 ∧ spo2 < 90 ∧ hr > 90 ∧ temp > 37.5 then
    [create_alert v.device_id "SEVERE_INFECTION" "CRITICAL" v now] else [])

/-- Embeds analyze_vitals of src/health_monitoring/correlation_engine.py:
resolve the device (no device, no alerts), collect its enabled
thresholds, run the rule cascade. -/
def analyze_vitals (s : HealthState) (now : ℚ) (v : VitalReadingCreate) :
    List HealthAlert :=
  match s.devices.find? (fun d => decide (d.device_id = v.device_id)) with
  | none => []
  | some device =>
      evalVitalRules device
        (s.thresholds.filter fun t =>
          decide (t.device_id = v.device_id) && t.enabled)
        now v

/-- The six default threshold rows seeded by create_device of
src/health_monitoring/services.py, in source order. -/
def default_thresholds (device_id : String) : List HealthThreshold :=
  [⟨device_id, "HR_HIGH", 100, true⟩,
   ⟨device_id, "HR_LOW", 50, true⟩,
   ⟨device_id, "SPO2_LOW", 95, true⟩,
   ⟨device_id, "SPO2_CRITICAL", 90, true⟩,
   ⟨device_id, "TEMP_HIGH", 38, true⟩,
   ⟨device_id, "TEMP_LOW", 35.5, true⟩]

/-- The Python x or y idiom used by the update branch of
create_device on optional strings: None and the empty string are
falsy. -/
def pyOrStr (new old : Option String) : Option String :=
  match new with
  | none => old
  | some s => if s = "" then old else some s

/-- Update the first list element satisfying the test, as mutating the
row returned by query(...).first() does. -/
def updateFirstDevice (p : HealthDevice → Bool) (f : HealthDevice → HealthDevice) :
    List HealthDevice → List HealthDevice
  | [] => []
  | d :: l => if p d then f d :: l else d :: updateFirstDevice p f l

/-- Embeds create_device of src/health_monitoring/services.py: update
the existing row in place, or append a new device row and seed the six
default thresholds. -/
def create_device (s : HealthState) (now : ℚ) (device : DeviceCreate) : HealthState :=
  match s.devices.find? (fun d => decide (d.device_id = device.device_id)) with
  | some _ =>
      let upd : HealthDevice → HealthDevice := fun d =>
        { d with device_name := pyOrStr device.device_name d.device_name
               , user_name := pyOrStr device.user_name d.user_name
               , date_of_birth :=
                   (match device.date_of_birth with
                    | none => d.date_of_birth
                    | some x => some x)
               , gender := pyOrStr device.gender d.gender
               , resting_hr := device.resting_hr
               , is_athlete := device.is_athlete
               , last_seen := some now }
      { s with
          devices := updateFirstDevice
            (fun d => decide (d.device_id = device.device_id)) upd s.devices }
  | none =>
      { s with
          devices := s.devices ++
            [{ device_id := device.device_id
             , device_name := device.device_name
             , user_name := device.user_name
             , date_of_birth := device.date_of_birth
             , gender := device.gender
             , resting_hr := device.resting_hr
             , is_athlete := device.is_athlete
             , last_seen := some now }]
          thresholds := s.thresholds ++ default_thresholds device.device_id }

/-- Embeds update_last_seen of src/health_monitoring/services.py. -/
def update_last_seen (s : HealthState) (now : ℚ) (device_id : String) : HealthState :=
  { s with
      devices := updateFirstDevice
        (fun d => decide (d.device_id = device_id))
        (fun d => { d with last_seen := some now })
        s.devices }

/-- The HealthVitalReading row stored by create_vital_reading. -/
def mkReading (v : VitalReadingCreate) : HealthVitalReading :=
  { device_id := v.device_id
  , timestamp := v.timestamp
  , heart_rate := v.vitals.heart_rate.bpm
  , hr_signal_quality := v.vitals.heart_rate.signal_quality
  , is_hr_valid := v.vitals.heart_rate.is_valid
  , spo2 := v.vitals.spo2.percent
  , spo2_signal_quality := v.vitals.spo2.signal_quality
  , is_spo2_valid := v.vitals.spo2.is_valid
  , temperature := v.vitals.temperature.celsius
  , temp_source := v.vitals.temperature.source
  , is_temp_estimated := v.vitals.temperature.is_estimated
  , battery_percent := v.system.battery_percent
  , battery_voltage := v.system.battery_voltage
  , wifi_rssi := v.system.wifi_rssi
  , uptime_seconds := v.system.uptime_seconds }

/-- The summary returned by create_vital_reading; critical_alerts
keeps the generated alerts whose severity is CRITICAL. -/
structure VitalReadingResponse where
  status : String
  alerts_generated : Nat
  critical_alerts : List HealthAlert
deriving DecidableEq

/-- Embeds create_vital_reading of src/health_monitoring/services.py:
auto-register an unknown device with all DeviceCreate defaults, touch
last_seen, append the reading row, run analyze_vitals (each generated
alert is committed by create_alert, hence appended to the alert
table), and return the summary. -/
def create_vital_reading (s : HealthState) (now : ℚ) (v : VitalReadingCreate) :
    HealthState × VitalReadingResponse :=
  let s1 :=
    match s.devices.find? (fun d => decide (d.device_id = v.device_id)) with
    | none => create_device s now { device_id := v.device_id }
    | some _ => s
  let s2 := update_last_seen s1 now v.device_id
  let s3 := { s2 with readings := s2.readings ++ [mkReading v] }
  let generated := analyze_vitals s3 now v
  ({ s3 with alerts := s3.alerts ++ generated },
   { status := "success"
   , alerts_generated := generated.length
   , critical_alerts := generated.filter fun a => decide (a.severity = "CRITICAL") })

/-- A device row as written by the auto-registration path of
create_vital_reading before last_seen is touched. -/
def seedDevice (device_id : String) (athlete : Option Bool) : HealthDevice :=
  ⟨device_id, none, none, none, none, some 70, athlete, none⟩

/-- The device row left by auto-registration after last_seen is set:
every profile field at its DeviceCreate default. -/
def registeredDevice (device_id : String) (now : ℚ) : HealthDevice :=
  ⟨device_id, none, none, none, none, some 70, some false, some now⟩

/-- A health database holding one registered device together with the
seeded default thresholds. -/
def seededHealthState (device_id : String) (athlete : Option Bool) : HealthState :=
  ⟨[seedDevice device_id athlete], default_thresholds device_id, [], []⟩

/-- A vitals payload carrying the fields the rules read; signal
qualities and system data are fixed benign values. -/
def mkVitalReading (device_id : String) (ts hr spo2pct : Int) (valid : Bool)
    (temp : ℚ) (estim : Bool) : VitalReadingCreate :=
  ⟨device_id, ts,
   ⟨⟨hr, 80, true⟩, ⟨spo2pct, 80, valid⟩, ⟨temp, "DS18B20", estim⟩⟩,
   ⟨100, 3.7, -50, 1000⟩⟩

/-- The deduplication invariant of the claim over the health alert
store: any two alerts with the same (device_id, alert_type) key are at
least 600 seconds (the 10-minute dedup window) apart.  Health alerts
carry no sensor key, so the claimed key reduces to this pair. -/
def HealthDedupSpaced (alerts : List HealthAlert) : Prop :=
  alerts.Pairwise fun a b =>
    a.device_id = b.device_id → a.alert_type = b.alert_type →
      |a.timestamp - b.timestamp| ≥ 600

end Health

namespace Energy

/-- Embeds the EnergyDevice table of src/energy_api/models.py with the
fields the audit touches. -/
structure EnergyDevice where
  device_id : String
  device_name : Option String
  location : Option String
deriving DecidableEq

/-- Embeds the EnergySensorConfig table of src/energy_api/models.py.
custom_label is NOT NULL; appliance_category is nullable. -/
structure EnergySensorConfig where
  device_id : String
  sensor_number : Int
  custom_label : String
  appliance_category : Option String
deriving DecidableEq

/-- Embeds the EnergySensorReading table of src/energy_api/models.py;
every measurement column is nullable. -/
structure EnergySensorReading where
  device_id : String
  timestamp : ℚ
  sensor_1_amps : Option ℚ
  sensor_1_watts : Option ℚ
  sensor_1_voltage : Option ℚ
  sensor_2_amps : Option ℚ
  sensor_2_watts : Option ℚ
  sensor_2_voltage : Option ℚ
  temperature_c : Option ℚ
  humidity_percent : Option ℚ
  light_raw : Option Int
  light_lux : Option Int
  outdoor_temp_c : Option ℚ
deriving DecidableEq

/-- Embeds the EnergyAuditLog table of src/energy_api/models.py; the
message column is not modelled.  New rows get the evaluation clock as
timestamp (server_default func.now()). -/
structure EnergyAuditLog where
  device_id : String
  timestamp : ℚ
  sensor_number : Int
  audit_type : String
  severity : String
  estimated_waste_watts : ℚ
deriving DecidableEq

/-- Embeds the alert dicts accumulated by run_energy_audit of
src/energy_api/audit.py before persistence (keys sensor, type,
severity, waste_watts; the message key is not modelled). -/
structure AuditAlert where
  sensor : Int
  type : String
  severity : String
  waste_watts : ℚ
deriving DecidableEq

/-- The database of the energy subsystem as lists in insertion order. -/
structure EnergyState where
  devices : List EnergyDevice
  configs : List EnergySensorConfig
  readings : List EnergySensorReading
  logs : List EnergyAuditLog
deriving DecidableEq

/-- Byte-wise list prefix test used to embed the Python substring
operator. -/
def listPrefix : List Char → List Char → Bool
  | [], _ => true
  | _ :: _, [] => false
  | a :: as, b :: bs => a == b && listPrefix as bs

/-- Byte-wise list infix test used to embed the Python substring
operator. -/
def listInfix (pat : List Char) : List Char → Bool
  | [] => listPrefix pat []
  | c :: rest => listPrefix pat (c :: rest) || listInfix pat rest

/-- The Python expression pat in s on strings: substring containment. -/
def strIncludes (s pat : String) : Bool :=
  listInfix pat.data s.data

/-- The Python str.lower() call on the ASCII labels the audit uses. -/
def lowerStr (s : String) : String :=
  String.mk (s.data.map Char.toLower)

/-- Python truthiness of a nullable float as used in the audit guards:
None and 0.0 are falsy; a truthy value is returned for comparison. -/
def truthyVal : Option ℚ → Option ℚ
  | none => none
  | some x => if x = 0 then none else some x

/-- Embeds the per-sensor body of the loop of run_energy_audit of
src/energy_api/audit.py for one sensor: voltage rules, the watts < 5
early continue, lighting rules, AC rules, heater rules, overheating,
phantom load, in source order.  A comparison of a null column with a
number raises TypeError in Python and aborts the audit; those
comparisons (voltage, watts, light_lux, amps) become Except.error in
the order the source reaches them.  Guards written with Python
truthiness (temperature_c, outdoor_temp_c) skip their rule instead. -/
def evalSensor (latest : EnergySensorReading) (config : Option EnergySensorConfig)
    (current watts voltage : Option ℚ) (now_hour : Int) (n : Int) :
    Except String (List AuditAlert) :=
  match voltage with
  | none => .error "TypeError: NoneType comparison"
  | some v =>
    let voltAlerts : List AuditAlert :=
      if v < 200 then [⟨n, "voltage_brownout", "danger", 0⟩]
      else if v > 250 then [⟨n, "voltage_surge", "danger", 0⟩]
      else []
    match watts with
    | none => .error "TypeError: NoneType comparison"
    | some w =>
      if w < 5 then .ok voltAlerts
      else
        let label := match config with
          | some c => lowerStr c.custom_label
          | none => "sensor " ++ toString n
        let category : Option String := match config with
          | some c => c.appliance_category
          | none => some "Unknown"
        let lightPart : Except String (List AuditAlert) :=
          if strIncludes label "light" || decide (category = some "Lighting") then
            match latest.light_lux with
            | none => .error "TypeError: NoneType comparison"
            | some lux =>
                .ok ((if lux > 800 then [⟨n, "lighting_waste", "warning", w⟩] else [])
                  ++ (if now_hour ≥ 23 ∨ now_hour < 5 then
                        [⟨n, "lighting_curfew_waste", "warning", w⟩] else []))
          else .ok []
        match lightPart with
        | .error e => .error e
        | .ok lightAlerts =>
          let acAlerts : List AuditAlert :=
            if decide (category = some "AC") || strIncludes label "ac"
                || strIncludes label "cooling" || strIncludes label "air con" then
              (match truthyVal latest.temperature_c, truthyVal latest.outdoor_temp_c with
               | some t, some o =>
                  if w > 200 ∧ t < 21 ∧ o < 24 then
                    [⟨n, "hvac_inefficient_use", "warning", w⟩] else []
               | _, _ => [])
              ++ (match truthyVal latest.temperature_c with
                  | some t =>
                      if t < 20 then [⟨n, "hvac_overcooling", "warning", w * 0.5⟩] else []
                  | none => [])
              ++ (match truthyVal latest.outdoor_temp_c, truthyVal latest.temperature_c with
                  | some o, some t =>
                      if t - o > 3 then [⟨n, "free_cooling_avail", "info", w⟩] else []
                  | _, _ => [])
            else []
          let heaterAlerts : List AuditAlert :=
            if decide (category = some "Heater") || strIncludes label "heater"
                || strIncludes label "heating" then
              match truthyVal latest.temperature_c, truthyVal latest.outdoor_temp_c with
              | some t, some o =>
                  if w > 200 ∧ t > 25 ∧ o > 20 then
                    [⟨n, "hvac_inefficient_use", "warning", w⟩] else []
              | _, _ => []
            else []
          let overheatAlerts : List AuditAlert :=
            if strIncludes label "heater" || strIncludes label "heating"
                || decide (category = some "HVAC") then
              match truthyVal latest.temperature_c with
              | some t =>
                  if t > 26 then [⟨n, "hvac_overheating", "warning", w * 0.6⟩] else []
              | none => []
            else []
          match current with
          | none => .error "TypeError: NoneType comparison"
          | some cur =>
            .ok (voltAlerts ++ lightAlerts ++ acAlerts ++ heaterAlerts ++ overheatAlerts
              ++ (if 0.02 < cur ∧ cur < 0.2 then [⟨n, "phantom_load", "info", w⟩] else []))

/-- The latest-reading query: order_by(timestamp.desc()).first() over
the readings of one device; among equal timestamps the earliest
inserted row wins, matching a stable descending sort. -/
def latestReading (readings : List EnergySensorReading) (device_id : String) :
    Option EnergySensorReading :=
  (readings.filter fun r => decide (r.device_id = device_id)).foldl
    (fun acc r =>
      match acc with
      | none => some r
      | some b => if r.timestamp > b.timestamp then some r else some b)
    none

/-- The recent-duplicate query of the persistence loop of
run_energy_audit: an existing log row with the same
(device_id, sensor_number, audit_type) key and timestamp strictly
inside the last 10 minutes (600 seconds). -/
def auditKeyRecent (logs : List EnergyAuditLog) (device_id : String) (now : ℚ)
    (c : AuditAlert) : Bool :=
  logs.any fun log =>
    decide (log.device_id = device_id) && decide (log.sensor_number = c.sensor)
      && decide (log.audit_type = c.type) && decide (log.timestamp > now - 600)

/-- Embeds the persistence loop of run_energy_audit: each candidate is
dropped when an identical-key row exists within the window, otherwise
appended with the evaluation clock as timestamp.  The query sees rows
added earlier in the same loop (the session autoflushes pending adds). -/
def dedupPersist (logs : List EnergyAuditLog) (device_id : String) (now : ℚ)
    (cands : List AuditAlert) : List EnergyAuditLog :=
  cands.foldl
    (fun acc c =>
      if auditKeyRecent acc device_id now c then acc
      else acc ++ [⟨device_id, now, c.sensor, c.type, c.severity, c.waste_watts⟩])
    logs

/-- Embeds run_energy_audit of src/energy_api/audit.py: resolve the
device and its latest reading (absent either, the audit returns no
alerts), build the config map (a dict keyed by sensor_number, last row
wins), compute the daily-usage estimate over the readings since
midnight, evaluate both sensors, then run the dedup persistence loop.
now_hour is datetime.utcnow().hour, today_start the midnight used by
the daily query.  Returns the full candidate list (the source returns
all candidates, also suppressed ones) and the persisted log table. -/
def run_energy_audit (s : EnergyState) (now : ℚ) (now_hour : Int)
    (today_start : ℚ) (device_id : String) :
    Except String (List AuditAlert × List EnergyAuditLog) :=
  match s.devices.find? (fun d => decide (d.device_id = device_id)) with
  | none => .ok ([], s.logs)
  | some _ =>
    match latestReading s.readings device_id with
    | none => .ok ([], s.logs)
    | some latest =>
      let deviceConfigs := s.configs.filter fun c => decide (c.device_id = device_id)
      let configFor := fun (k : Int) =>
        deviceConfigs.reverse.find? fun c => decide (c.sensor_number = k)
      let todays := s.readings.filter fun r =>
        decide (r.device_id = device_id) && decide (today_start ≤ r.timestamp)
      let total_watts :=
        (todays.map fun r => r.sensor_1_watts.getD 0 + r.sensor_2_watts.getD 0).sum
      let daily_kwh := total_watts * 5 / (3600 * 1000)
      let dailyAlerts : List AuditAlert :=
        if daily_kwh > 20 then [⟨0, "daily_limit_exceeded", "warning", 0⟩] else []
      match evalSensor latest (configFor 1) latest.sensor_1_amps latest.sensor_1_watts
          latest.sensor_1_voltage now_hour 1 with
      | .error e => .error e
      | .ok alerts1 =>
        match evalSensor latest (configFor 2) latest.sensor_2_amps latest.sensor_2_watts
            latest.sensor_2_voltage now_hour 2 with
        | .error e => .error e
        | .ok alerts2 =>
          let alerts := dailyAlerts ++ alerts1 ++ alerts2
          .ok (alerts, dedupPersist s.logs device_id now alerts)

/-- The same-key relation of the deduplication claim over persisted
log rows. -/
def SameAuditKey (l1 l2 : EnergyAuditLog) : Prop :=
  l1.device_id = l2.device_id ∧ l1.sensor_number = l2.sensor_number
    ∧ l1.audit_type = l2.audit_type

/-- The deduplication invariant of the claim over the energy audit
log: any two identical-key rows are at least 600 seconds apart. -/
def DedupSpaced (logs : List EnergyAuditLog) : Prop :=
  logs.Pairwise fun l1 l2 => SameAuditKey l1 l2 → |l1.timestamp - l2.timestamp| ≥ 600

end Energy

namespace Burglary

theorem mem_insertTsDesc (a x : Alert) (l : List Alert) :
    x ∈ insertTsDesc a l ↔ x = a ∨ x ∈ l := by
  induction l with
  | nil => simp [insertTsDesc]
  | cons b t ih =>
      simp only [insertTsDesc]
      split
      · simp
      · simp only [List.mem_cons, ih]
        tauto

theorem mem_sortTsDesc (x : Alert) (l : List Alert) :
    x ∈ sortTsDesc l ↔ x ∈ l := by
  induction l with
  | nil => simp [sortTsDesc]
  | cons a t ih => simp [sortTsDesc, mem_insertTsDesc, ih]

/-- Membership characterisation of the candidate query: an alert is a
candidate exactly when it is stored, uncorrelated, and timestamped
inside the asymmetric window.  No other condition is involved. -/
theorem mem_candidates (db : List Alert) (image : Image) (a : Alert) :
    a ∈ uncorrelatedAlertsInWindow db image
      ↔ a ∈ db ∧ a.correlated = false
        ∧ image.timestamp - 10 ≤ a.timestamp
        ∧ a.timestamp ≤ image.timestamp + 5 := by
  simp only [uncorrelatedAlertsInWindow, mem_sortTsDesc, List.mem_filter,
    Bool.and_eq_true, Bool.not_eq_true', decide_eq_true_eq, CORRELATION_WINDOW_SECONDS]
  tauto

theorem scanFold_isSome (image : Image) (l : List Alert) (x : Alert) (q : ℚ) :
    ((List.foldl (scanStep image) (some x, q) l).1).isSome := by
  induction l generalizing x q with
  | nil => rfl
  | cons a t ih =>
      simp only [List.foldl_cons, scanStep]
      split
      · exact ih _ _
      · exact ih _ _

theorem scanFold_mem (image : Image) (l : List Alert) (x : Alert) (q : ℚ) (m : Alert)
    (h : (List.foldl (scanStep image) (some x, q) l).1 = some m) :
    m = x ∨ m ∈ l := by
  induction l generalizing x q with
  | nil => simp at h; tauto
  | cons a t ih =>
      simp only [List.foldl_cons, scanStep] at h
      split at h
      · rcases ih _ _ h with h1 | h1
        · right; simp [h1]
        · right; exact List.mem_cons_of_mem _ h1
      · rcases ih _ _ h with h1 | h1
        · left; exact h1
        · right; exact List.mem_cons_of_mem _ h1

theorem scanStep_none (image : Image) (a : Alert) :
    scanStep image (none, CORRELATION_WINDOW_SECONDS) a
      = if |a.timestamp - image.timestamp| < CORRELATION_WINDOW_SECONDS
        then (some a, |a.timestamp - image.timestamp|)
        else (none, CORRELATION_WINDOW_SECONDS) := rfl

theorem scanFold_none_iff (image : Image) (l : List Alert) :
    (List.foldl (scanStep image) (none, CORRELATION_WINDOW_SECONDS) l).1 = none
      ↔ ∀ a ∈ l, ¬ (|a.timestamp - image.timestamp| < CORRELATION_WINDOW_SECONDS) := by
  induction l with
  | nil => simp
  | cons a t ih =>
      rw [List.foldl_cons, scanStep_none]
      by_cases hc : |a.timestamp - image.timestamp| < CORRELATION_WINDOW_SECONDS
      · rw [if_pos hc]
        constructor
        · intro h
          have hs := scanFold_isSome image t a (|a.timestamp - image.timestamp|)
          rw [h] at hs
          simp at hs
        · intro h
          exact absurd hc (h a (List.mem_cons_self a t))
      · rw [if_neg hc, ih]
        constructor
        · intro h b hb
          rcases List.mem_cons.mp hb with hb | hb
          · rw [hb]; exact hc
          · exact h b hb
        · intro h b hb
          exact h b (List.mem_cons_of_mem _ hb)

theorem scanBest_none_iff (image : Image) (l : List Alert) :
    (scanBest image l).1 = none
      ↔ ∀ a ∈ l, ¬ (|a.timestamp - image.timestamp| < CORRELATION_WINDOW_SECONDS) := by
  unfold scanBest
  exact scanFold_none_iff image l

theorem scanBest_mem (image : Image) (l : List Alert) (m : Alert)
    (h : (scanBest image l).1 = some m) : m ∈ l := by
  unfold scanBest at h
  induction l with
  | nil => simp at h
  | cons a t ih =>
      simp only [List.foldl_cons, scanStep] at h
      split at h
      · rcases scanFold_mem image t a _ m h with h1 | h1
        · simp [h1]
        · exact List.mem_cons_of_mem _ h1
      · exact List.mem_cons_of_mem _ (ih h)

/-- Claim C1 (counterexample): an uncorrelated alert 7 seconds before
the image is inside the queried window (lookback 10 s) yet
correlate_image_with_alert returns no match, because the selection
loop starts its minimum at 5 seconds and requires a strictly smaller
difference.  The claim asserts found=true for every alert in the
window. -/
theorem correlate_returns_none_for_alert_7s_back :
    (correlate_image_with_alert
      [{ id := 1, timestamp := 93, alert_type := "motion",
         detection_confidence := 9/10,
         pir_sensors_triggered := ⟨true, false, false⟩,
         network_status := "online", image_id := none, correlated := false }]
      { id := 4, timestamp := 100, image_path := "a.jpg",
        file_size := 10, alert_id := none }).1 = none := by
  norm_num [correlate_image_with_alert, uncorrelatedAlertsInWindow, sortTsDesc,
    insertTsDesc, scanBest, scanStep, CORRELATION_WINDOW_SECONDS,
    List.filter, List.foldl]

/-- Claim C1 (amended): whenever some uncorrelated alert lies at
absolute distance strictly below 5 seconds from the image timestamp,
correlate_image_with_alert returns a match, and the link is symmetric:
the matched alert gets image_id = image.id and correlated = true, the
image gets alert_id = the alert id, and the updated alert row is in
the updated table.  Alerts merely inside the queried window but at
distance 5 seconds or more are never matched. -/
theorem correlate_links_symmetric_when_within_5s (db : List Alert) (image : Image)
    (h : ∃ a ∈ db, a.correlated = false ∧ |a.timestamp - image.timestamp| < 5) :
    ∃ m db2 img2,
      correlate_image_with_alert db image = (some m, db2, img2)
      ∧ m.image_id = some image.id
      ∧ m.correlated = true
      ∧ img2.alert_id = some m.id
      ∧ img2.id = image.id
      ∧ m ∈ db2 := by
  obtain ⟨a, ha, hcorr, hclose⟩ := h
  have hwin : a ∈ uncorrelatedAlertsInWindow db image := by
    rw [mem_candidates]
    have h1 := abs_lt.mp hclose
    refine ⟨ha, hcorr, by linarith [h1.1], by linarith [h1.2]⟩
  have hsome : (scanBest image (uncorrelatedAlertsInWindow db image)).1 ≠ none := by
    intro hn
    exact (scanBest_none_iff image _ |>.mp hn) a hwin hclose
  obtain ⟨bm, hbm⟩ := Option.ne_none_iff_exists.mp hsome
  refine ⟨{ bm with image_id := some image.id, correlated := true },
    db.map fun x => if x.id = bm.id then
      { bm with image_id := some image.id, correlated := true } else x,
    { image with alert_id := some bm.id }, ?_, rfl, rfl, rfl, rfl, ?_⟩
  · simp only [correlate_image_with_alert]
    rw [← hbm]
  · have hmem : bm ∈ db := by
      have := scanBest_mem image _ bm hbm.symm
      exact ((mem_candidates db image bm).mp this).1
    refine List.mem_map.mpr ⟨bm, hmem, ?_⟩
    rw [if_pos rfl]

/-- Witness for the C1 theorem at a concrete input: a single
uncorrelated alert 1 second after the image. -/
theorem correlate_links_symmetric_when_within_5s_witness :
    ∃ m db2 img2,
      correlate_image_with_alert
        [{ id := 1, timestamp := 101, alert_type := "motion",
           detection_confidence := 9/10,
           pir_sensors_triggered := ⟨true, true, false⟩,
           network_status := "online", image_id := none, correlated := false }]
        { id := 4, timestamp := 100, image_path := "a.jpg",
          file_size := 10, alert_id := none } = (some m, db2, img2)
      ∧ m.image_id = some 4
      ∧ m.correlated = true
      ∧ img2.alert_id = some m.id
      ∧ img2.id = 4
      ∧ m ∈ db2 :=
  correlate_links_symmetric_when_within_5s _ _
    ⟨{ id := 1, timestamp := 101, alert_type := "motion",
       detection_confidence := 9/10,
       pir_sensors_triggered := ⟨true, true, false⟩,
       network_status := "online", image_id := none, correlated := false },
     by simp, rfl, by norm_num⟩

/-- Claim C2 (counterexample): nothing about the posting device
restricts the candidate set.  The burglary_alerts row stores no device
identifier at all, so an alert posted by one camera device is selected
as the match for an image uploaded by a different device; here the
correlation outcome is proved identical for every posting device name,
with the concrete image conceptually uploaded by a device other than
the one that posted the alert. -/
theorem correlate_selects_alert_regardless_of_posting_device :
    (∀ postingDevice : String,
      ((correlate_image_with_alert
        (postedAlerts [(postingDevice,
          { timestamp := 99000, detection_confidence := 8/10,
            pir_left := true, pir_middle := false, pir_right := false,
            network_status := "online" })])
        { id := 1, timestamp := 100, image_path := "b.jpg",
          file_size := 20, alert_id := none }).1).map Alert.id = some 1)
    ∧ "esp32-cam-B" ≠ "esp32-cam-A" := by
  constructor
  · intro postingDevice
    have hdb : postedAlerts [(postingDevice,
        { timestamp := 99000, detection_confidence := 8/10,
          pir_left := true, pir_middle := false, pir_right := false,
          network_status := "online" })]
        = [{ id := 1, timestamp := ((99000 : Int) : ℚ) / 1000,
             alert_type := "motion", detection_confidence := 8/10,
             pir_sensors_triggered := ⟨true, false, false⟩,
             network_status := "online", image_id := none,
             correlated := false }] := rfl
    have hts : ((99000 : Int) : ℚ) / 1000 = 99 := by norm_num
    rw [hdb, hts]
    norm_num [correlate_image_with_alert, uncorrelatedAlertsInWindow, sortTsDesc,
      insertTsDesc, scanBest, scanStep, CORRELATION_WINDOW_SECONDS,
      List.filter, List.foldl]
  · decide

/-- Claim C2 (amended): the candidate set of
correlate_image_with_alert consists exactly of the stored alerts that
are uncorrelated and timestamped within the asymmetric window; there
is no restriction by device, and none is expressible, because neither
alerts nor images carry a device identifier. -/
theorem candidate_set_only_uncorrelated_in_window
    (db : List Alert) (image : Image) (a : Alert) :
    a ∈ uncorrelatedAlertsInWindow db image
      ↔ a ∈ db ∧ a.correlated = false
        ∧ image.timestamp - 10 ≤ a.timestamp
        ∧ a.timestamp ≤ image.timestamp + 5 :=
  mem_candidates db image a

/-- Witness for the C2 theorem at a concrete input. -/
theorem candidate_set_only_uncorrelated_in_window_witness :
    { id := 2, timestamp := 97, alert_type := "motion",
      detection_confidence := 1,
      pir_sensors_triggered := ⟨false, true, false⟩,
      network_status := "offline", image_id := none,
      correlated := false : Alert } ∈ uncorrelatedAlertsInWindow
        [{ id := 2, timestamp := 97, alert_type := "motion",
           detection_confidence := 1,
           pir_sensors_triggered := ⟨false, true, false⟩,
           network_status := "offline", image_id := none, correlated := false }]
        { id := 9, timestamp := 100, image_path := "c.jpg",
          file_size := 5, alert_id := none } :=
  (candidate_set_only_uncorrelated_in_window _ _ _).mpr
    ⟨by simp, rfl, by norm_num, by norm_num⟩

/-- Claim C3 (counterexample): two uncorrelated alerts equally distant
(2 seconds) from the anchor image at timestamp 100, the alert with id 1
created first at timestamp 98, the alert with id 2 created second at
timestamp 102.  The claim says the earliest-created (id 1) is chosen;
the code scans in timestamp-descending order with strict improvement
and therefore picks id 2. -/
theorem tie_selects_later_created_candidate :
    ((correlate_image_with_alert
      [{ id := 1, timestamp := 98, alert_type := "motion",
         detection_confidence := 1,
         pir_sensors_triggered := ⟨true, false, false⟩,
         network_status := "online", image_id := none, correlated := false },
       { id := 2, timestamp := 102, alert_type := "motion",
         detection_confidence := 1,
         pir_sensors_triggered := ⟨false, false, true⟩,
         network_status := "online", image_id := none, correlated := false }]
      { id := 3, timestamp := 100, image_path := "d.jpg",
        file_size := 7, alert_id := none }).1).map Alert.id = some 2
    ∧ (2 : Nat) ≠ 1 := by
  constructor
  · norm_num [correlate_image_with_alert, uncorrelatedAlertsInWindow, sortTsDesc,
      insertTsDesc, scanBest, scanStep, CORRELATION_WINDOW_SECONDS,
      List.filter, List.foldl]
  · decide

/-- Claim C3 (amended): with two uncorrelated candidates at exactly
equal absolute time difference (strictly below 5 seconds) from the
anchor and distinct timestamps, the candidate with the later timestamp
is selected, whichever of the two was created first; selection is
deterministic because the scan runs over the timestamp-descending
query order with strict improvement. -/
theorem equidistant_tie_breaks_to_later_timestamp (a b : Alert) (image : Image)
    (hca : a.correlated = false) (hcb : b.correlated = false)
    (hlt : a.timestamp < b.timestamp)
    (heq : |a.timestamp - image.timestamp| = |b.timestamp - image.timestamp|)
    (hwin : |b.timestamp - image.timestamp| < 5) :
    ((correlate_image_with_alert [a, b] image).1).map Alert.id = some b.id
    ∧ ((correlate_image_with_alert [b, a] image).1).map Alert.id = some b.id := by
  have hb1 := (abs_lt.mp hwin).1
  have hb2 := (abs_lt.mp hwin).2
  have hwa : |a.timestamp - image.timestamp| < 5 := heq ▸ hwin
  have ha1 := (abs_lt.mp hwa).1
  have ha2 := (abs_lt.mp hwa).2
  have hfa : (!a.correlated
      && decide (image.timestamp - 10 ≤ a.timestamp)
      && decide (a.timestamp ≤ image.timestamp + CORRELATION_WINDOW_SECONDS)) = true := by
    rw [hca]
    simp only [CORRELATION_WINDOW_SECONDS, Bool.not_false, Bool.true_and, Bool.and_eq_true,
      decide_eq_true_eq]
    constructor <;> linarith
  have hfb : (!b.correlated
      && decide (image.timestamp - 10 ≤ b.timestamp)
      && decide (b.timestamp ≤ image.timestamp + CORRELATION_WINDOW_SECONDS)) = true := by
    rw [hcb]
    simp only [CORRELATION_WINDOW_SECONDS, Bool.not_false, Bool.true_and, Bool.and_eq_true,
      decide_eq_true_eq]
    constructor <;> linarith
  have hsab : uncorrelatedAlertsInWindow [a, b] image = [b, a] := by
    unfold uncorrelatedAlertsInWindow
    simp only [List.filter_cons, List.filter_nil, hfa, hfb, if_true]
    simp only [sortTsDesc, insertTsDesc]
    rw [if_neg (not_le.mpr hlt)]
  have hsba : uncorrelatedAlertsInWindow [b, a] image = [b, a] := by
    unfold uncorrelatedAlertsInWindow
    simp only [List.filter_cons, List.filter_nil, hfa, hfb, if_true]
    simp only [sortTsDesc, insertTsDesc]
    rw [if_pos (le_of_lt hlt)]
  have hscan : (scanBest image [b, a]).1 = some b := by
    unfold scanBest
    rw [List.foldl_cons, scanStep_none,
      if_pos (show |b.timestamp - image.timestamp| < CORRELATION_WINDOW_SECONDS from hwin),
      List.foldl_cons]
    have hstep : scanStep image (some b, |b.timestamp - image.timestamp|) a
        = (some b, |b.timestamp - image.timestamp|) := by
      unfold scanStep
      rw [heq]
      simp
    rw [hstep]
    rfl
  constructor
  · simp only [correlate_image_with_alert, hsab, hscan]
    rfl
  · simp only [correlate_image_with_alert, hsba, hscan]
    rfl

/-- Witness for the C3 theorem at concrete inputs. -/
theorem equidistant_tie_breaks_to_later_timestamp_witness :
    ((correlate_image_with_alert
      [{ id := 5, timestamp := 99, alert_type := "motion",
         detection_confidence := 1,
         pir_sensors_triggered := ⟨true, true, true⟩,
         network_status := "online", image_id := none, correlated := false },
       { id := 6, timestamp := 101, alert_type := "motion",
         detection_confidence := 1,
         pir_sensors_triggered := ⟨true, true, true⟩,
         network_status := "online", image_id := none, correlated := false }]
      { id := 8, timestamp := 100, image_path := "e.jpg",
        file_size := 3, alert_id := none }).1).map Alert.id = some 6
    ∧ ((correlate_image_with_alert
      [{ id := 6, timestamp := 101, alert_type := "motion",
         detection_confidence := 1,
         pir_sensors_triggered := ⟨true, true, true⟩,
         network_status := "online", image_id := none, correlated := false },
       { id := 5, timestamp := 99, alert_type := "motion",
         detection_confidence := 1,
         pir_sensors_triggered := ⟨true, true, true⟩,
         network_status := "online", image_id := none, correlated := false }]
      { id := 8, timestamp := 100, image_path := "e.jpg",
        file_size := 3, alert_id := none }).1).map Alert.id = some 6 :=
  equidistant_tie_breaks_to_later_timestamp _ _ _
    rfl rfl (by norm_num) (by norm_num) (by norm_num)

/-- Claim C4 (counterexample): the anchor image with id 7 is already
linked (alert_id = 1, and alert 1 is correlated with image_id = 7).
A second correlation call does not check the anchor and finds the
still-uncorrelated alert 2 at distance 1 second: it returns a match
and re-points the image at alert 2, a second link, where the claim
requires found=false and no second link. -/
theorem second_correlate_relinks_anchor :
    ((correlate_image_with_alert
      [{ id := 1, timestamp := 100, alert_type := "motion",
         detection_confidence := 1,
         pir_sensors_triggered := ⟨true, false, false⟩,
         network_status := "online", image_id := some 7, correlated := true },
       { id := 2, timestamp := 101, alert_type := "motion",
         detection_confidence := 1,
         pir_sensors_triggered := ⟨false, true, false⟩,
         network_status := "online", image_id := none, correlated := false }]
      { id := 7, timestamp := 100, image_path := "f.jpg",
        file_size := 11, alert_id := some 1 }).1).isSome = true
    ∧ (correlate_image_with_alert
      [{ id := 1, timestamp := 100, alert_type := "motion",
         detection_confidence := 1,
         pir_sensors_triggered := ⟨true, false, false⟩,
         network_status := "online", image_id := some 7, correlated := true },
       { id := 2, timestamp := 101, alert_type := "motion",
         detection_confidence := 1,
         pir_sensors_triggered := ⟨false, true, false⟩,
         network_status := "online", image_id := none, correlated := false }]
      { id := 7, timestamp := 100, image_path := "f.jpg",
        file_size := 11, alert_id := some 1 }).2.2.alert_id = some 2 := by
  constructor <;>
    norm_num [correlate_image_with_alert, uncorrelatedAlertsInWindow, sortTsDesc,
      insertTsDesc, scanBest, scanStep, CORRELATION_WINDOW_SECONDS,
      List.filter, List.foldl]

/-- Claim C4 (amended): a repeated call on an already-linked anchor
never rematches the previously linked alert, whose correlated flag
excludes it from the query; when no uncorrelated alert lies at
absolute distance strictly below 5 seconds the call returns no match
and leaves every row unchanged.  (When another uncorrelated alert is
strictly within 5 seconds, the anchor is linked again, as the
counterexample shows, so idempotency holds only in that restricted
form.) -/
theorem correlate_none_when_no_strictly_close_uncorrelated
    (db : List Alert) (image : Image)
    (h : ∀ a ∈ db, a.correlated = false → ¬ (|a.timestamp - image.timestamp| < 5)) :
    correlate_image_with_alert db image = (none, db, image) := by
  have hn : (scanBest image (uncorrelatedAlertsInWindow db image)).1 = none := by
    rw [scanBest_none_iff]
    intro a ha
    have hm := (mem_candidates db image a).mp ha
    exact h a hm.1 hm.2.1
  simp only [correlate_image_with_alert, hn]

/-- Witness for the C4 theorem: a store whose only close alert is
already correlated, with the anchor already linked to it. -/
theorem correlate_none_when_no_strictly_close_uncorrelated_witness :
    correlate_image_with_alert
      [{ id := 1, timestamp := 100, alert_type := "motion",
         detection_confidence := 1,
         pir_sensors_triggered := ⟨true, false, false⟩,
         network_status := "online", image_id := some 7, correlated := true }]
      { id := 7, timestamp := 100, image_path := "g.jpg",
        file_size := 2, alert_id := some 1 }
    = (none,
       [{ id := 1, timestamp := 100, alert_type := "motion",
          detection_confidence := 1,
          pir_sensors_triggered := ⟨true, false, false⟩,
          network_status := "online", image_id := some 7, correlated := true }],
       { id := 7, timestamp := 100, image_path := "g.jpg",
         file_size := 2, alert_id := some 1 }) :=
  correlate_none_when_no_strictly_close_uncorrelated _ _
    (by
      intro a ha hc
      simp only [List.mem_singleton] at ha
      rw [ha] at hc
      exact absurd hc (by decide))

end Burglary

namespace Health

theorem updateFirstDevice_append_last (p : HealthDevice → Bool)
    (f : HealthDevice → HealthDevice) (l : List HealthDevice) (d : HealthDevice)
    (h : ∀ x ∈ l, p x = false) (hd : p d = true) :
    updateFirstDevice p f (l ++ [d]) = l ++ [f d] := by
  induction l with
  | nil => simp [updateFirstDevice, hd]
  | cons a t ih =>
      have ha := h a (List.mem_cons_self a t)
      have iht := ih fun x hx => h x (List.mem_cons_of_mem _ hx)
      simp [updateFirstDevice, ha, iht]

theorem find?_append_last {α : Type} (p : α → Bool) (l : List α) (d : α)
    (h : ∀ x ∈ l, p x = false) (hd : p d = true) :
    (l ++ [d]).find? p = some d := by
  induction l with
  | nil => simp [List.find?, hd]
  | cons a t ih =>
      simp only [List.cons_append, List.find?, h a (List.mem_cons_self a t)]
      exact ih fun x hx => h x (List.mem_cons_of_mem _ hx)

theorem thGet_HR_HIGH (d : String) (x : ℚ) :
    thresholdGet (default_thresholds d) "HR_HIGH" x = 100 := rfl

theorem thGet_HR_LOW (d : String) (x : ℚ) :
    thresholdGet (default_thresholds d) "HR_LOW" x = 50 := rfl

theorem thGet_SPO2_LOW (d : String) (x : ℚ) :
    thresholdGet (default_thresholds d) "SPO2_LOW" x = 95 := rfl

theorem thGet_SPO2_CRITICAL (d : String) (x : ℚ) :
    thresholdGet (default_thresholds d) "SPO2_CRITICAL" x = 90 := rfl

theorem thGet_TEMP_HIGH (d : String) (x : ℚ) :
    thresholdGet (default_thresholds d) "TEMP_HIGH" x = 38 := rfl

theorem thGet_TEMP_LOW (d : String) (x : ℚ) :
    thresholdGet (default_thresholds d) "TEMP_LOW" x = 35.5 := rfl

theorem filter_default_thresholds (d : String) :
    (default_thresholds d).filter (fun t => decide (t.device_id = d) && t.enabled)
      = default_thresholds d := by
  simp [default_thresholds]

theorem analyze_vitals_seeded (did : String) (athlete : Option Bool) (now : ℚ)
    (v : VitalReadingCreate) (hdid : v.device_id = did) :
    analyze_vitals (seededHealthState did athlete) now v
      = evalVitalRules (seedDevice did athlete) (default_thresholds did) now v := by
  have hf : List.find? (fun d => decide (d.device_id = v.device_id))
      [seedDevice did athlete] = some (seedDevice did athlete) := by
    simp [seedDevice, hdid]
  simp only [analyze_vitals, seededHealthState, hf]
  rw [hdid, filter_default_thresholds]

/-- Claim C10: a vitals ingestion for an unknown device is not
rejected: create_vital_reading first registers the device with the
default profile (resting_hr 70, not an athlete) and seeds exactly the
six default thresholds (HR_HIGH 100, HR_LOW 50, SPO2_LOW 95,
SPO2_CRITICAL 90, TEMP_HIGH 38, TEMP_LOW 35.5), then stores the
reading, reports success, and the generated alerts are exactly the
rule cascade evaluated against the registered device row and those
default thresholds. -/
theorem create_vital_reading_autoregisters_device
    (s : HealthState) (now : ℚ) (v : VitalReadingCreate)
    (hdev : ∀ d ∈ s.devices, d.device_id ≠ v.device_id)
    (hth : ∀ t ∈ s.thresholds, t.device_id ≠ v.device_id) :
    (create_vital_reading s now v).1.devices
        = s.devices ++ [registeredDevice v.device_id now]
    ∧ (create_vital_reading s now v).1.thresholds
        = s.thresholds ++ default_thresholds v.device_id
    ∧ (create_vital_reading s now v).1.readings = s.readings ++ [mkReading v]
    ∧ (create_vital_reading s now v).2.status = "success"
    ∧ (create_vital_reading s now v).1.alerts
        = s.alerts ++ evalVitalRules (registeredDevice v.device_id now)
            (default_thresholds v.device_id) now v
    ∧ (create_vital_reading s now v).2.alerts_generated
        = (evalVitalRules (registeredDevice v.device_id now)
            (default_thresholds v.device_id) now v).length := by
  have hpdev : ∀ x ∈ s.devices, (decide (x.device_id = v.device_id)) = false :=
    fun x hx => by simp [hdev x hx]
  have hfind : s.devices.find? (fun d => decide (d.device_id = v.device_id)) = none :=
    List.find?_eq_none.mpr fun d hd => by simp [hdev d hd]
  have hupd : updateFirstDevice (fun d => decide (d.device_id = v.device_id)) (fun d => { d with last_seen := some now }) (s.devices ++ [(⟨v.device_id, none, none, none, none, some 70, some false, some now⟩ : HealthDevice)]) = s.devices ++ [(⟨v.device_id, none, none, none, none, some 70, some false, some now⟩ : HealthDevice)] := by
    rw [updateFirstDevice_append_last _ _ _ _ hpdev (by simp)]
  have hfind2 : (s.devices ++ [(⟨v.device_id, none, none, none, none, some 70, some false, some now⟩ : HealthDevice)]).find? (fun d => decide (d.device_id = v.device_id)) = some (⟨v.device_id, none, none, none, none, some 70, some false, some now⟩ : HealthDevice) :=
    find?_append_last _ _ _ hpdev (by simp)
  have hfilter : (s.thresholds ++ default_thresholds v.device_id).filter
      (fun t => decide (t.device_id = v.device_id) && t.enabled)
      = default_thresholds v.device_id := by
    rw [List.filter_append]
    have h1 : s.thresholds.filter
        (fun t => decide (t.device_id = v.device_id) && t.enabled) = [] :=
      List.filter_eq_nil.mpr fun t ht => by simp [hth t ht]
    rw [h1, filter_default_thresholds, List.nil_append]
  refine ⟨?_, ?_, ?_, ?_, ?_, ?_⟩ <;>
    simp [create_vital_reading, create_device, update_last_seen, analyze_vitals,
      registeredDevice, hfind, hupd, hfind2, hfilter]

/-- Witness for the C10 theorem: ingestion into an empty database. -/
theorem create_vital_reading_autoregisters_device_witness :
    (create_vital_reading ⟨[], [], [], []⟩ 500
        (mkVitalReading "hm-09" 490 70 97 true 36.6 false)).1.devices
        = [] ++ [registeredDevice "hm-09" 500]
    ∧ (create_vital_reading ⟨[], [], [], []⟩ 500
        (mkVitalReading "hm-09" 490 70 97 true 36.6 false)).1.thresholds
        = [] ++ default_thresholds "hm-09"
    ∧ (create_vital_reading ⟨[], [], [], []⟩ 500
        (mkVitalReading "hm-09" 490 70 97 true 36.6 false)).1.readings
        = [] ++ [mkReading (mkVitalReading "hm-09" 490 70 97 true 36.6 false)]
    ∧ (create_vital_reading ⟨[], [], [], []⟩ 500
        (mkVitalReading "hm-09" 490 70 97 true 36.6 false)).2.status = "success"
    ∧ (create_vital_reading ⟨[], [], [], []⟩ 500
        (mkVitalReading "hm-09" 490 70 97 true 36.6 false)).1.alerts
        = [] ++ evalVitalRules (registeredDevice "hm-09" 500)
            (default_thresholds "hm-09") 500
            (mkVitalReading "hm-09" 490 70 97 true 36.6 false)
    ∧ (create_vital_reading ⟨[], [], [], []⟩ 500
        (mkVitalReading "hm-09" 490 70 97 true 36.6 false)).2.alerts_generated
        = (evalVitalRules (registeredDevice "hm-09" 500)
            (default_thresholds "hm-09") 500
            (mkVitalReading "hm-09" 490 70 97 true 36.6 false)).length :=
  create_vital_reading_autoregisters_device _ _ _
    (by intro d hd; simp at hd) (by intro t ht; simp at ht)

/-- Claim C7 (counterexample): SpO2 89 with the seeded defaults, heart
rate 40 (at most 90 as the claim requires) and temperature 37 (at most
37.5): analyze_vitals produces two alerts, CRITICAL_HYPOXIA and
BRADYCARDIA, not exactly one. -/
theorem spo2_89_with_bradycardia_two_alerts :
    ((analyze_vitals (seededHealthState "hm-01" (some false)) 200
        (mkVitalReading "hm-01" 100 40 89 true 37 false)).map
      fun a => a.alert_type) = ["CRITICAL_HYPOXIA", "BRADYCARDIA"]
    ∧ ((analyze_vitals (seededHealthState "hm-01" (some false)) 200
        (mkVitalReading "hm-01" 100 40 89 true 37 false)).length ≠ 1) := by
  rw [analyze_vitals_seeded "hm-01" (some false) 200
    (mkVitalReading "hm-01" 100 40 89 true 37 false) rfl]
  constructor
  · norm_num [evalVitalRules, thGet_HR_HIGH, thGet_HR_LOW, thGet_SPO2_LOW,
      thGet_SPO2_CRITICAL, thGet_TEMP_HIGH, thGet_TEMP_LOW,
      seedDevice, mkVitalReading, create_alert, athleteTruthy]
  · norm_num [evalVitalRules, thGet_HR_HIGH, thGet_HR_LOW, thGet_SPO2_LOW,
      thGet_SPO2_CRITICAL, thGet_TEMP_HIGH, thGet_TEMP_LOW,
      seedDevice, mkVitalReading, create_alert, athleteTruthy]

/-- Claim C7 (amended): with the seeded default thresholds, a valid
SpO2 of 89, heart rate between 50 and 90 and temperature between 35.5
and 37.5 (so that no bradycardia or hypothermia rule can also fire),
analyze_vitals produces exactly one alert, the CRITICAL hypoxia alert;
the same reading with SpO2 96 produces no alert at all. -/
theorem spo2_89_single_critical_hypoxia_in_normal_range
    (did : String) (athlete : Option Bool) (hr : Int) (temp : ℚ) (estim : Bool)
    (now : ℚ) (ts : Int)
    (h1 : 50 ≤ hr) (h2 : hr ≤ 90) (h3 : 35.5 ≤ temp) (h4 : temp ≤ 37.5) :
    ((analyze_vitals (seededHealthState did athlete) now
        (mkVitalReading did ts hr 89 true temp estim)).map
      fun a => (a.alert_type, a.severity)) = [("CRITICAL_HYPOXIA", "CRITICAL")]
    ∧ analyze_vitals (seededHealthState did athlete) now
        (mkVitalReading did ts hr 96 true temp estim) = [] := by
  have hhr90 : ¬ (hr > 90) := by omega
  have hhr100 : ¬ (hr > 100) := by omega
  have hhrq100 : ¬ ((hr : ℚ) > 100) := by
    intro h
    have hc : (hr : ℚ) ≤ 90 := by exact_mod_cast h2
    linarith
  have hhrq50 : ¬ ((hr : ℚ) < 50) := by
    intro h
    have hc : (50 : ℚ) ≤ (hr : ℚ) := by exact_mod_cast h1
    linarith
  have ht1 : ¬ (temp > 37.5) := not_lt.mpr h4
  have ht2 : ¬ (temp > 38) := by intro h; rw [gt_iff_lt] at h; nlinarith
  have ht3 : ¬ (temp < 35.5) := not_lt.mpr h3
  rw [analyze_vitals_seeded did athlete now
        (mkVitalReading did ts hr 89 true temp estim) rfl,
      analyze_vitals_seeded did athlete now
        (mkVitalReading did ts hr 96 true temp estim) rfl]
  constructor
  · norm_num [evalVitalRules, thGet_HR_HIGH, thGet_HR_LOW, thGet_SPO2_LOW,
      thGet_SPO2_CRITICAL, thGet_TEMP_HIGH, thGet_TEMP_LOW,
      seedDevice, mkVitalReading, create_alert,
      hhr90, hhr100, hhrq100, hhrq50, ht1, ht2, ht3] <;>
    linarith
  · norm_num [evalVitalRules, thGet_HR_HIGH, thGet_HR_LOW, thGet_SPO2_LOW,
      thGet_SPO2_CRITICAL, thGet_TEMP_HIGH, thGet_TEMP_LOW,
      seedDevice, mkVitalReading, create_alert,
      hhr90, hhr100, hhrq100, hhrq50, ht1, ht2, ht3] <;>
    linarith

/-- Witness for the C7 theorem at a concrete input. -/
theorem spo2_89_single_critical_hypoxia_in_normal_range_witness :
    ((analyze_vitals (seededHealthState "hm-05" (some false)) 300
        (mkVitalReading "hm-05" 290 72 89 true 36.8 false)).map
      fun a => (a.alert_type, a.severity)) = [("CRITICAL_HYPOXIA", "CRITICAL")]
    ∧ analyze_vitals (seededHealthState "hm-05" (some false)) 300
        (mkVitalReading "hm-05" 290 72 96 true 36.8 false) = [] :=
  spo2_89_single_critical_hypoxia_in_normal_range "hm-05" (some false) 72 36.8
    false 300 290 (by norm_num) (by norm_num) (by norm_num) (by norm_num)

/-- Claim C5 (counterexample): the health path does not deduplicate at
all.  Two vitals ingestions with SpO2 89 one second apart persist two
CRITICAL_HYPOXIA alerts with the same (device, rule type) key and
timestamps 1 second apart, violating the claimed 10-minute spacing
invariant. -/
theorem health_persists_duplicate_alerts_within_window :
    ¬ HealthDedupSpaced
      ((create_vital_reading
        (create_vital_reading ⟨[], [], [], []⟩ 100
          (mkVitalReading "hm-02" 90 70 89 true 37 false)).1 101
        (mkVitalReading "hm-02" 91 70 89 true 37 false)).1.alerts) := by
  have hlist : (create_vital_reading
        (create_vital_reading ⟨[], [], [], []⟩ 100
          (mkVitalReading "hm-02" 90 70 89 true 37 false)).1 101
        (mkVitalReading "hm-02" 91 70 89 true 37 false)).1.alerts
      = [{ device_id := "hm-02", timestamp := 100,
           alert_type := "CRITICAL_HYPOXIA", severity := "CRITICAL",
           vital_snapshot := ⟨70, 80, 89, 80, 37, "DS18B20"⟩,
           acknowledged := false },
         { device_id := "hm-02", timestamp := 101,
           alert_type := "CRITICAL_HYPOXIA", severity := "CRITICAL",
           vital_snapshot := ⟨70, 80, 89, 80, 37, "DS18B20"⟩,
           acknowledged := false }] := by
    norm_num [create_vital_reading, create_device, update_last_seen,
      updateFirstDevice, analyze_vitals, mkVitalReading, mkReading,
      evalVitalRules, create_alert, athleteTruthy, filter_default_thresholds,
      thGet_HR_HIGH, thGet_HR_LOW, thGet_SPO2_LOW, thGet_SPO2_CRITICAL,
      thGet_TEMP_HIGH, thGet_TEMP_LOW, List.find?]
  intro h
  rw [hlist] at h
  simp only [HealthDedupSpaced] at h
  have h1 := (List.pairwise_cons.mp h).1
    { device_id := "hm-02", timestamp := 101,
      alert_type := "CRITICAL_HYPOXIA", severity := "CRITICAL",
      vital_snapshot := ⟨70, 80, 89, 80, 37, "DS18B20"⟩,
      acknowledged := false } (by simp) rfl rfl
  norm_num at h1

end Health

namespace Energy

/-- Claim C6: the audit deduplication is a sliding cool-down relative
to the evaluation clock.  A candidate whose (device_id, sensor_number,
audit_type) key matches a log row persisted strictly within the last
600 seconds is dropped (not merged); when every identical-key row is
older than 600 seconds (for example 11 minutes), the candidate is
persisted with the evaluation clock as timestamp. -/
theorem energy_dedup_suppresses_recent_and_persists_stale
    (logs : List EnergyAuditLog) (device_id : String) (now : ℚ) (c : AuditAlert) :
    ((∃ log ∈ logs, log.device_id = device_id ∧ log.sensor_number = c.sensor
        ∧ log.audit_type = c.type ∧ log.timestamp > now - 600)
      → dedupPersist logs device_id now [c] = logs)
    ∧ ((∀ log ∈ logs, log.device_id = device_id → log.sensor_number = c.sensor
        → log.audit_type = c.type → log.timestamp < now - 600)
      → dedupPersist logs device_id now [c]
          = logs ++ [⟨device_id, now, c.sensor, c.type, c.severity, c.waste_watts⟩]) := by
  constructor
  · rintro ⟨log, hm, h1, h2, h3, h4⟩
    have hrec : auditKeyRecent logs device_id now c = true := by
      rw [auditKeyRecent, List.any_eq_true]
      exact ⟨log, hm, by simp [h1, h2, h3, h4]⟩
    simp [dedupPersist, hrec]
  · intro hall
    have hrec : auditKeyRecent logs device_id now c = false := by
      rw [Bool.eq_false_iff]
      intro hc
      rw [auditKeyRecent, List.any_eq_true] at hc
      obtain ⟨log, hm, hp⟩ := hc
      simp only [Bool.and_eq_true, decide_eq_true_eq] at hp
      obtain ⟨⟨⟨h1, h2⟩, h3⟩, h4⟩ := hp
      have := hall log hm h1 h2 h3
      linarith
    simp [dedupPersist, hrec]

/-- Witness for the C6 theorem: a row 50 seconds old suppresses an
identical-key candidate, and the same row 750 seconds old (evaluation
clock 1700) lets it through. -/
theorem energy_dedup_suppresses_recent_and_persists_stale_witness :
    dedupPersist [⟨"e1", 950, 1, "phantom_load", "info", 10⟩] "e1" 1000
        [⟨1, "phantom_load", "info", 12⟩]
      = [⟨"e1", 950, 1, "phantom_load", "info", 10⟩]
    ∧ dedupPersist [⟨"e1", 950, 1, "phantom_load", "info", 10⟩] "e1" 1700
        [⟨1, "phantom_load", "info", 12⟩]
      = [⟨"e1", 950, 1, "phantom_load", "info", 10⟩]
        ++ [⟨"e1", 1700, 1, "phantom_load", "info", 12⟩] :=
  ⟨(energy_dedup_suppresses_recent_and_persists_stale _ _ _ _).1
      ⟨⟨"e1", 950, 1, "phantom_load", "info", 10⟩, by simp, rfl, rfl, rfl, by norm_num⟩,
   (energy_dedup_suppresses_recent_and_persists_stale _ _ _ _).2
      (by
        intro log hm h1 h2 h3
        simp only [List.mem_singleton] at hm
        subst hm
        norm_num)⟩

/-- Claim C5 (amended): the 10-minute spacing invariant over the
persisted energy audit log is preserved by the persistence loop of
run_energy_audit: starting from a store satisfying it whose rows are
not in the future, the store after persisting any candidate list still
satisfies it.  (The health subsystem does not maintain the invariant:
its create_alert path deduplicates nothing, as the counterexample
shows.) -/
theorem energy_dedup_preserves_spacing_invariant
    (logs : List EnergyAuditLog) (device_id : String) (now : ℚ)
    (cands : List AuditAlert)
    (hinv : DedupSpaced logs) (hle : ∀ l ∈ logs, l.timestamp ≤ now) :
    DedupSpaced (dedupPersist logs device_id now cands) := by
  induction cands generalizing logs with
  | nil => exact hinv
  | cons c cs ih =>
      have hstep : dedupPersist logs device_id now (c :: cs)
          = dedupPersist
              (if auditKeyRecent logs device_id now c then logs
               else logs ++ [⟨device_id, now, c.sensor, c.type, c.severity, c.waste_watts⟩])
              device_id now cs := by
        rw [dedupPersist, List.foldl_cons]
        rfl
      rw [hstep]
      by_cases hrec : auditKeyRecent logs device_id now c = true
      · rw [if_pos hrec]
        exact ih logs hinv hle
      · rw [if_neg hrec]
        apply ih
        · rw [DedupSpaced, List.pairwise_append]
          refine ⟨hinv, List.pairwise_singleton _ _, ?_⟩
          intro l1 h1 l2 h2 hkey
          simp only [List.mem_singleton] at h2
          subst h2
          obtain ⟨k1, k2, k3⟩ := hkey
          rw [Bool.not_eq_true, Bool.eq_false_iff] at hrec
          have hnot : ¬ ((decide (l1.device_id = device_id)
              && decide (l1.sensor_number = c.sensor)
              && decide (l1.audit_type = c.type)
              && decide (l1.timestamp > now - 600)) = true) := by
            intro hc
            exact hrec (by rw [auditKeyRecent, List.any_eq_true]; exact ⟨l1, h1, hc⟩)
          simp only [Bool.and_eq_true, decide_eq_true_eq, not_and] at hnot
          have hts : ¬ (l1.timestamp > now - 600) := hnot ⟨⟨k1, k2⟩, k3⟩
          have hle1 := hle l1 h1
          have hval : l1.timestamp ≤ now - 600 := not_lt.mp hts
          rw [abs_of_nonpos (by simp; linarith)]
          simp
          linarith
        · intro l hl
          rcases List.mem_append.mp hl with hl | hl
          · exact hle l hl
          · simp only [List.mem_singleton] at hl
            subst hl
            exact le_refl now

/-- Witness for the C5 theorem: persisting two candidates into an
empty log. -/
theorem energy_dedup_preserves_spacing_invariant_witness :
    DedupSpaced (dedupPersist [] "e2" 100
      [⟨1, "voltage_brownout", "danger", 0⟩, ⟨2, "phantom_load", "info", 4⟩]) :=
  energy_dedup_preserves_spacing_invariant [] "e2" 100
    [⟨1, "voltage_brownout", "danger", 0⟩, ⟨2, "phantom_load", "info", 4⟩]
    (by simp [DedupSpaced]) (by simp)

end Energy

namespace Energy

/-- Claim C9: a device whose latest reading has sensor 1 drawing 250
watts with indoor temperature 19, outdoor temperature 22 and a sensor
config of category AC yields, among the audit results, a
hvac_inefficient_use alert of severity warning for that sensor; proved
for every device id and every light level, with the full audit result
computed (the inefficient-use alert first, followed by the overcooling
alert the same reading also triggers). -/
theorem audit_flags_hvac_inefficient_use (did : String) (lux : Int) :
    ∃ res, run_energy_audit
      ⟨[⟨did, none, none⟩],
       [⟨did, 1, "main ac", some "AC"⟩],
       [⟨did, 10, some 1, some 250, some 220, some 0, some 0, some 220,
         some 19, some 50, some 100, some lux, some 22⟩],
       []⟩ 5000 12 0 did = .ok res
    ∧ (⟨1, "hvac_inefficient_use", "warning", 250⟩ : AuditAlert) ∈ res.1 := by
  have sf1 : strIncludes (lowerStr "main ac") "light" = false := by decide
  have sf2 : strIncludes (lowerStr "main ac") "heater" = false := by decide
  have sf3 : strIncludes (lowerStr "main ac") "heating" = false := by decide
  have hAC1 : ("AC" : String) ≠ "Lighting" := by decide
  have hAC2 : ("AC" : String) ≠ "Heater" := by decide
  have hAC3 : ("AC" : String) ≠ "HVAC" := by decide
  have hty : ("hvac_inefficient_use" : String) ≠ "hvac_overcooling" := by decide
  have hded : dedupPersist [] did 5000
      [⟨1, "hvac_inefficient_use", "warning", 250⟩,
       ⟨1, "hvac_overcooling", "warning", 125⟩]
      = [⟨did, 5000, 1, "hvac_inefficient_use", "warning", 250⟩,
         ⟨did, 5000, 1, "hvac_overcooling", "warning", 125⟩] := by
    norm_num [dedupPersist, auditKeyRecent, hty]
  have hrun : run_energy_audit
      ⟨[⟨did, none, none⟩],
       [⟨did, 1, "main ac", some "AC"⟩],
       [⟨did, 10, some 1, some 250, some 220, some 0, some 0, some 220,
         some 19, some 50, some 100, some lux, some 22⟩],
       []⟩ 5000 12 0 did
      = .ok ([⟨1, "hvac_inefficient_use", "warning", 250⟩,
              ⟨1, "hvac_overcooling", "warning", 125⟩],
             [⟨did, 5000, 1, "hvac_inefficient_use", "warning", 250⟩,
              ⟨did, 5000, 1, "hvac_overcooling", "warning", 125⟩]) := by
    norm_num [run_energy_audit, latestReading, evalSensor, truthyVal,
      sf1, sf2, sf3, hAC1, hAC2, hAC3, hded]
  exact ⟨_, hrun, by norm_num⟩

/-- Claim C8 (counterexample): a lighting-category sensor that is on
(50 watts) with a null light_lux column makes run_energy_audit abort
with a TypeError instead of skipping only the lighting rule: the
comparison light_lux > 800 is unguarded in the source. -/
theorem null_light_lux_aborts_energy_audit :
    run_energy_audit
      ⟨[⟨"ed-2", none, none⟩],
       [⟨"ed-2", 1, "Light Strip", some "Lighting"⟩],
       [⟨"ed-2", 10, some 1, some 50, some 220, some 0, some 0, some 220,
         some 22, some 40, some 5, none, some 25⟩],
       []⟩ 1000 12 0 "ed-2"
    = .error "TypeError: NoneType comparison" := by
  have sf : strIncludes (lowerStr "Light Strip") "light" = true := by decide
  norm_num [run_energy_audit, latestReading, evalSensor, truthyVal, sf]

/-- Claim C8 (amended): the fields the claim names are skipped
gracefully.  Health: a vitals reading whose SpO2 is flagged invalid
yields exactly the evaluation of the rules that do not read SpO2
(fever cascade, tachycardia, bradycardia, estimated-temperature note,
hypothermia); no SpO2 rule fires and the evaluation completes.
Energy: a reading with null indoor and outdoor temperatures completes
and yields exactly the non-temperature alerts, here the voltage rule
outcome, which is still evaluated.  (A null light_lux on an active
lighting sensor, by contrast, aborts the whole audit, as the
counterexample shows, so the claim holds only for the fields it
names.) -/
theorem missing_fields_skip_only_dependent_rules
    (did : String) (athlete : Option Bool) (hr pct ts : Int) (temp : ℚ)
    (estim : Bool) (now : ℚ) (volt : ℚ) (nowE : ℚ) :
    (Health.analyze_vitals (Health.seededHealthState did athlete) now
        (Health.mkVitalReading did ts hr pct false temp estim)
      = (if temp > 38 then
           (if (hr : ℚ) > 100 then
             [Health.create_alert did "FEVER" "WARNING"
               (Health.mkVitalReading did ts hr pct false temp estim) now]
            else
             [Health.create_alert did "HIGH_TEMP" "WARNING"
               (Health.mkVitalReading did ts hr pct false temp estim) now])
         else [])
        ++ (if (hr : ℚ) > 100 then
             [Health.create_alert did "TACHYCARDIA" "WARNING"
               (Health.mkVitalReading did ts hr pct false temp estim) now] else [])
        ++ (if (hr : ℚ) < 50 ∧ hr > 0 ∧ Health.athleteTruthy athlete = false then
             [Health.create_alert did "BRADYCARDIA" "WARNING"
               (Health.mkVitalReading did ts hr pct false temp estim) now] else [])
        ++ (if estim = true ∧ hr > 100 then
             [Health.create_alert did "TEMP_EST_UNRELIABLE" "INFO"
               (Health.mkVitalReading did ts hr pct false temp estim) now] else [])
        ++ (if temp < 35.5 then
             [Health.create_alert did "HYPOTHERMIA" "CRITICAL"
               (Health.mkVitalReading did ts hr pct false temp estim) now] else []))
    ∧ (∃ logs, run_energy_audit
        ⟨[⟨"ed-1", none, none⟩],
         [⟨"ed-1", 1, "main ac", some "AC"⟩],
         [⟨"ed-1", 10, some 1, some 250, some volt, some 0, some 0, some 220,
           none, some 50, some 100, some 400, none⟩],
         []⟩ nowE 12 0 "ed-1"
        = .ok ((if volt < 200 then [⟨1, "voltage_brownout", "danger", 0⟩]
                else if volt > 250 then [⟨1, "voltage_surge", "danger", 0⟩]
                else []), logs)) := by
  have sf1 : strIncludes (lowerStr "main ac") "light" = false := by decide
  have sf2 : strIncludes (lowerStr "main ac") "heater" = false := by decide
  have sf3 : strIncludes (lowerStr "main ac") "heating" = false := by decide
  constructor
  · rw [Health.analyze_vitals_seeded did athlete now
      (Health.mkVitalReading did ts hr pct false temp estim) rfl]
    norm_num [Health.evalVitalRules, Health.thGet_HR_HIGH, Health.thGet_HR_LOW,
      Health.thGet_SPO2_LOW, Health.thGet_SPO2_CRITICAL, Health.thGet_TEMP_HIGH,
      Health.thGet_TEMP_LOW, Health.seedDevice, Health.mkVitalReading,
      Health.create_alert]
  · refine ⟨dedupPersist [] "ed-1" nowE
      (if volt < 200 then [⟨1, "voltage_brownout", "danger", 0⟩]
       else if volt > 250 then [⟨1, "voltage_surge", "danger", 0⟩]
       else []), ?_⟩
    norm_num [run_energy_audit, latestReading, evalSensor, truthyVal,
      sf1, sf2, sf3]

end Energy
